import Mathlib

/-
Verification of the workflow-orchestration core of the SVOps backend.

The definitions below are a shallow embedding of the Python source:
  - app/shared/types.py            (WorkflowStatus, TaskStatus)
  - app/domain/entities.py         (WorkflowRun.update_status)
  - app/application/tasks/workflow_tasks.py
        (_update_workflow_run_status, _map_airflow_status,
         one iteration of _monitor_workflow_run_impl)
  - app/application/use_cases/workflow_use_cases.py
        (stop_workflow_run, retry_workflow_run, get_workflow_run_status,
         trigger_workflow run-id generation, _map_airflow_status)
  - app/application/tasks/dag_chain_tasks.py
        (_monitor_dag_completion_async, _trigger_next_dag)
  - app/core/retry.py              (calculate_delay, retry_async, CircuitBreaker)
  - app/application/services/airflow_service.py
        (decorator layering on _make_request, trigger_dag payload)

Wall-clock instants are modelled as natural numbers (seconds); the external
Airflow responses are modelled by the fields the code actually reads.
-/

namespace SVOps

/-- Internal workflow-run status enum: `WorkflowStatus` in app/shared/types.py. -/
inductive WorkflowStatus where
  | QUEUED
  | RUNNING
  | SUCCESS
  | FAILED
  | UP_FOR_RETRY
  | UP_FOR_RESCHEDULE
  | UPSTREAM_FAILED
  | SKIPPED
  | REMOVED
  | SCHEDULED
deriving DecidableEq, Repr

/-- Terminal statuses per the design glossary: SUCCESS, FAILED, UPSTREAM_FAILED,
SKIPPED, REMOVED. -/
def WorkflowStatus.isTerminal : WorkflowStatus → Bool
  | .SUCCESS => true
  | .FAILED => true
  | .UPSTREAM_FAILED => true
  | .SKIPPED => true
  | .REMOVED => true
  | _ => false

/-- Task (parent job) status enum: `TaskStatus` in app/shared/types.py. -/
inductive TaskStatus where
  | PENDING
  | RUNNING
  | COMPLETED
  | FAILED
  | CANCELLED
deriving DecidableEq, Repr

/-- The fields of a `WorkflowRun` entity (app/domain/entities.py) that the
status state machine reads or writes.  Identity, configuration and provenance
fields are never touched by the modelled operations and are omitted. -/
structure WorkflowRun where
  status : WorkflowStatus
  start_date : Option Nat
  end_date : Option Nat
deriving DecidableEq, Repr

/-- `WorkflowRun.update_status` (app/domain/entities.py): sets the status
unconditionally; stamps `end_date = datetime.now()` exactly when the new
status is SUCCESS or FAILED. -/
def WorkflowRun.update_status (run : WorkflowRun) (newStatus : WorkflowStatus)
    (now : Nat) : WorkflowRun :=
  if newStatus = .SUCCESS ∨ newStatus = .FAILED then
    { run with status := newStatus, end_date := some now }
  else
    { run with status := newStatus }

/-- The fields of an Airflow dag-run response that the code reads:
`state`, `start_date`, `end_date` (timestamps already parsed). -/
structure DagRunData where
  state : String
  start_date : Option Nat
  end_date : Option Nat
deriving DecidableEq, Repr

/-- `_map_airflow_status` — identical dictionaries in
app/application/tasks/workflow_tasks.py and
app/application/use_cases/workflow_use_cases.py: a string-keyed lookup with
default `WorkflowStatus.QUEUED` for any unknown key. -/
def map_airflow_status (airflow_state : String) : WorkflowStatus :=
  if airflow_state = "queued" then .QUEUED
  else if airflow_state = "running" then .RUNNING
  else if airflow_state = "success" then .SUCCESS
  else if airflow_state = "failed" then .FAILED
  else if airflow_state = "up_for_retry" then .UP_FOR_RETRY
  else if airflow_state = "up_for_reschedule" then .UP_FOR_RESCHEDULE
  else if airflow_state = "upstream_failed" then .UPSTREAM_FAILED
  else if airflow_state = "skipped" then .SKIPPED
  else if airflow_state = "removed" then .REMOVED
  else if airflow_state = "scheduled" then .SCHEDULED
  else .QUEUED

/-- The ten external state strings the mapping dictionaries know. -/
def knownAirflowStates : List String :=
  ["queued", "running", "success", "failed", "up_for_retry",
   "up_for_reschedule", "upstream_failed", "skipped", "removed", "scheduled"]

/-- `_update_workflow_run_status` (app/application/tasks/workflow_tasks.py):
the watch loop's apply step.  Maps the observed state, calls
`WorkflowRun.update_status` with it unconditionally, then overwrites
`start_date` / `end_date` from the payload when those fields are present. -/
def update_workflow_run_status (run : WorkflowRun) (d : DagRunData)
    (now : Nat) : WorkflowRun :=
  let status := map_airflow_status d.state
  let run1 := run.update_status status now
  let run2 :=
    match d.start_date with
    | some t => { run1 with start_date := some t }
    | none => run1
  match d.end_date with
  | some t => { run2 with end_date := some t }
  | none => run2

/-- Events published on the Redis event channels
(app/application/services/event_service.py publishers, as invoked from the
modelled code paths). -/
inductive Event where
  | triggered
  | started
  | completed (success : Bool)
  | stopped
  | retried
deriving DecidableEq, Repr

/-- Result of one poll iteration of the per-run watch loop. -/
structure MonitorStepResult where
  run : WorkflowRun
  events : List Event
  done : Bool
deriving DecidableEq, Repr

/-- One iteration of the polling loop in `_monitor_workflow_run_impl`
(app/application/tasks/workflow_tasks.py): applies
`_update_workflow_run_status`, then publishes a started event whenever the
observed state string is "running" and a completed event whenever it is
"success" or "failed" (breaking the loop in the latter two cases), and
finally breaks when the mapped status is SUCCESS, FAILED or REMOVED. -/
def monitor_workflow_run_step (run : WorkflowRun) (d : DagRunData)
    (now : Nat) : MonitorStepResult :=
  let status := map_airflow_status d.state
  let run1 := update_workflow_run_status run d now
  if d.state = "running" then
    ⟨run1, [.started],
      [WorkflowStatus.SUCCESS, .FAILED, .REMOVED].contains status⟩
  else if d.state = "success" then
    ⟨run1, [.completed true], true⟩
  else if d.state = "failed" then
    ⟨run1, [.completed false], true⟩
  else
    ⟨run1, [], [WorkflowStatus.SUCCESS, .FAILED, .REMOVED].contains status⟩

/-- The synchronous status-read path `get_workflow_run_status`
(app/application/use_cases/workflow_use_cases.py): the run is mutated and
persisted only when the mapped external status differs from the stored one;
the mutation performed in that case is exactly the watch apply step.  The
returned Bool records whether a write happened. -/
def get_workflow_run_status_apply (run : WorkflowRun) (d : DagRunData)
    (now : Nat) : WorkflowRun × Bool :=
  if run.status ≠ map_airflow_status d.state then
    (update_workflow_run_status run d now, true)
  else
    (run, false)

/-- Result of the StopRun command: the stored run after the command, the
events published, and whether the command succeeded (`ok = false` models the
operation raising `ExternalServiceError`). -/
structure StopResult where
  run : WorkflowRun
  events : List Event
  ok : Bool
deriving DecidableEq, Repr

/-- `stop_workflow_run` (app/application/use_cases/workflow_use_cases.py).
The whole body sits in one `try` block: the external cancel
(`patch_dag_run`) runs first, and only if it returns does the code force the
local status to FAILED via `update_status` and publish "stopped".  Any
exception from the cancel call jumps to the `except` handler, which raises
`ExternalServiceError` without touching the stored run or publishing. -/
def stop_workflow_run (cancelOk : Bool) (run : WorkflowRun)
    (now : Nat) : StopResult :=
  if cancelOk then
    ⟨run.update_status .FAILED now, [.stopped], true⟩
  else
    ⟨run, [], false⟩

/-- `retry_workflow_run` (app/application/use_cases/workflow_use_cases.py),
local-state part after a successful external clear: status forced to QUEUED,
`start_date` and `end_date` cleared. -/
def retry_workflow_run (run : WorkflowRun) (now : Nat) : WorkflowRun :=
  let r := run.update_status .QUEUED now
  { r with start_date := none, end_date := none }

/-- The run created by `trigger_workflow`: status QUEUED, no timestamps yet. -/
def initialRun : WorkflowRun := ⟨.QUEUED, none, none⟩

/-- Run states reachable from a fresh trigger through the core operations:
the watch apply step, the synchronous read path, stop (with the cancel call
succeeding or failing) and retry. -/
inductive Reachable : WorkflowRun → Prop where
  | trigger : Reachable initialRun
  | applyObserved {r : WorkflowRun} (d : DagRunData) (now : Nat) :
      Reachable r → Reachable (update_workflow_run_status r d now)
  | syncRead {r : WorkflowRun} (d : DagRunData) (now : Nat) :
      Reachable r → Reachable (get_workflow_run_status_apply r d now).1
  | stop {r : WorkflowRun} (cancelOk : Bool) (now : Nat) :
      Reachable r → Reachable (stop_workflow_run cancelOk r now).run
  | retryRun {r : WorkflowRun} (now : Nat) :
      Reachable r → Reachable (retry_workflow_run r now)

/-- The status stored by the watch apply step is always the mapped observed
status: the overwrite is unconditional. -/
theorem update_workflow_run_status_status (r : WorkflowRun) (d : DagRunData)
    (now : Nat) :
    (update_workflow_run_status r d now).status = map_airflow_status d.state := by
  unfold update_workflow_run_status WorkflowRun.update_status
  dsimp only
  split <;> split <;> split <;> rfl

/-- A run in the RUNNING state, as stored before a stop command arrives. -/
def runningRun : WorkflowRun := ⟨.RUNNING, some 1, none⟩

/-- C1 as stated is false: when the external cancel call fails,
`stop_workflow_run` raises without forcing the local status to FAILED and
without publishing a "stopped" event — the stored run is unchanged. -/
theorem claim1_counterexample :
    (stop_workflow_run false runningRun 5).run.status ≠ WorkflowStatus.FAILED
    ∧ (stop_workflow_run false runningRun 5).events = []
    ∧ (stop_workflow_run false runningRun 5).run = runningRun
    ∧ (stop_workflow_run false runningRun 5).ok = false := by
  decide

/-- C1 amended: StopRun forces the local status to FAILED and publishes
"stopped" exactly when the external cancel call succeeds; when the cancel
call fails, the operation raises `ExternalServiceError` (ok = false), leaves
the stored run unchanged and publishes no event. -/
theorem claim1_theorem (r : WorkflowRun) (now : Nat) :
    stop_workflow_run true r now
      = ⟨r.update_status .FAILED now, [.stopped], true⟩
    ∧ (stop_workflow_run true r now).run.status = WorkflowStatus.FAILED
    ∧ stop_workflow_run false r now = ⟨r, [], false⟩ := by
  refine ⟨rfl, ?_, rfl⟩
  simp [stop_workflow_run, WorkflowRun.update_status]

/-- C2 as stated is false: after StopRun forces FAILED (a terminal status),
the watch apply step given a stale poll observing "running" overwrites the
stored status with RUNNING. -/
theorem claim2_counterexample :
    ((stop_workflow_run true runningRun 2).run.status.isTerminal = true)
    ∧ (update_workflow_run_status (stop_workflow_run true runningRun 2).run
        ⟨"running", none, none⟩ 3).status = WorkflowStatus.RUNNING := by
  decide

/-- C2 amended: the watch apply step performs no terminal-status lock-in —
it overwrites the stored status with the status mapped from the external
observation unconditionally, terminal or not. -/
theorem claim2_theorem (r : WorkflowRun) (d : DagRunData) (now : Nat) :
    (update_workflow_run_status r d now).status = map_airflow_status d.state :=
  update_workflow_run_status_status r d now

/-- C3 as stated is false in the watch loop: a second poll observing the same
"running" state publishes a second started event, and a second poll observing
the same "failed" payload (one carrying no end_date) re-stamps `end_date`. -/
theorem claim3_counterexample :
    (monitor_workflow_run_step
        (monitor_workflow_run_step initialRun ⟨"running", some 4, none⟩ 5).run
        ⟨"running", some 4, none⟩ 6).events = [Event.started]
    ∧ (monitor_workflow_run_step initialRun ⟨"failed", some 4, none⟩ 5).run.end_date
        = some 5
    ∧ (monitor_workflow_run_step
        (monitor_workflow_run_step initialRun ⟨"failed", some 4, none⟩ 5).run
        ⟨"failed", some 4, none⟩ 6).run.end_date = some 6 := by
  decide

/-- C3 amended: only the synchronous status-read path is idempotent — once an
observation has been applied, re-applying the same observation performs no
mutation and no write; the watch loop, by contrast, republishes a started
event on every poll observing "running" and re-stamps `end_date` on a
repeated terminal observation carrying no end_date (the counterexample). -/
theorem claim3_theorem (r : WorkflowRun) (d : DagRunData) (n1 n2 : Nat) :
    get_workflow_run_status_apply
        (get_workflow_run_status_apply r d n1).1 d n2
      = ((get_workflow_run_status_apply r d n1).1, false) := by
  unfold get_workflow_run_status_apply
  by_cases h : r.status = map_airflow_status d.state
  · simp [h]
  · simp [h, update_workflow_run_status_status]

/-- A reachable run that is terminal yet has no end_date: a fresh run whose
first poll observes "upstream_failed" with no end_date in the payload. -/
def upstreamFailedRun : WorkflowRun :=
  update_workflow_run_status initialRun ⟨"upstream_failed", none, none⟩ 5

/-- C5 as stated is false: `upstreamFailedRun` is reachable (trigger, then one
watch apply of an observed "upstream_failed"), its status is terminal, yet
its end_date is unset — `update_status` stamps end_date only for SUCCESS and
FAILED. -/
theorem claim5_counterexample :
    Reachable upstreamFailedRun
    ∧ upstreamFailedRun.status.isTerminal = true
    ∧ upstreamFailedRun.end_date = none :=
  ⟨Reachable.applyObserved ⟨"upstream_failed", none, none⟩ 5 Reachable.trigger,
   by decide, by decide⟩

/-- C5 amended: end_date is guaranteed set only on transition into SUCCESS or
FAILED — the watch apply step sets it whenever the mapped observed status is
SUCCESS or FAILED, and a successful StopRun sets it; for the remaining
terminal statuses (UPSTREAM_FAILED, SKIPPED, REMOVED) it stays unset unless
the external payload carries an end_date (the counterexample). -/
theorem claim5_theorem (r : WorkflowRun) (d : DagRunData) (now : Nat)
    (h : map_airflow_status d.state = WorkflowStatus.SUCCESS
        ∨ map_airflow_status d.state = WorkflowStatus.FAILED) :
    (update_workflow_run_status r d now).end_date ≠ none
    ∧ (stop_workflow_run true r now).run.end_date ≠ none := by
  constructor
  · unfold update_workflow_run_status WorkflowRun.update_status
    dsimp only
    rw [if_pos h]
    split <;> split <;> simp
  · simp [stop_workflow_run, WorkflowRun.update_status]

/-- Closed witness for `claim5_theorem` at an observed "success" payload. -/
theorem claim5_witness :
    (map_airflow_status "success" = WorkflowStatus.SUCCESS
        ∨ map_airflow_status "success" = WorkflowStatus.FAILED)
    ∧ ((update_workflow_run_status initialRun ⟨"success", none, none⟩ 7).end_date ≠ none
        ∧ (stop_workflow_run true initialRun 7).run.end_date ≠ none) :=
  ⟨Or.inl (by decide), claim5_theorem initialRun ⟨"success", none, none⟩ 7
    (Or.inl (by decide))⟩

/-- C6: the state mapping is total — each of the ten known external state
strings maps to the like-named internal status, and every other string maps
to QUEUED, which is not terminal. -/
theorem claim6_theorem :
    (map_airflow_status "queued" = .QUEUED
      ∧ map_airflow_status "running" = .RUNNING
      ∧ map_airflow_status "success" = .SUCCESS
      ∧ map_airflow_status "failed" = .FAILED
      ∧ map_airflow_status "up_for_retry" = .UP_FOR_RETRY
      ∧ map_airflow_status "up_for_reschedule" = .UP_FOR_RESCHEDULE
      ∧ map_airflow_status "upstream_failed" = .UPSTREAM_FAILED
      ∧ map_airflow_status "skipped" = .SKIPPED
      ∧ map_airflow_status "removed" = .REMOVED
      ∧ map_airflow_status "scheduled" = .SCHEDULED)
    ∧ ∀ s : String, s ∉ knownAirflowStates →
        map_airflow_status s = .QUEUED
        ∧ (map_airflow_status s).isTerminal = false := by
  refine ⟨by decide, ?_⟩
  intro s hs
  simp only [knownAirflowStates, List.mem_cons, List.not_mem_nil, or_false,
    not_or] at hs
  obtain ⟨h1, h2, h3, h4, h5, h6, h7, h8, h9, h10⟩ := hs
  simp [map_airflow_status, h1, h2, h3, h4, h5, h6, h7, h8, h9, h10,
    WorkflowStatus.isTerminal]

/-- Closed witness for `claim6_theorem` at the unknown state "latte". -/
theorem claim6_witness :
    ("latte" : String) ∉ knownAirflowStates
    ∧ (map_airflow_status "latte" = .QUEUED
        ∧ (map_airflow_status "latte").isTerminal = false) :=
  ⟨by decide, claim6_theorem.2 "latte" (by decide)⟩

/-- `RetryConfig` (app/core/retry.py).  Delays are rationals (the source uses
floats; all configured values are exact).  The retryable-exception tuple is
not modelled: `EXTERNAL_SERVICE_RETRY` lists `Exception` itself, so every
exception is retryable on that configuration. -/
structure RetryConfig where
  max_attempts : Nat
  delay : ℚ
  backoff_factor : ℚ
  max_delay : ℚ
  jitter : Bool
deriving DecidableEq, Repr

/-- `calculate_delay` (app/core/retry.py) before the jitter multiplication:
`min(config.delay * config.backoff_factor ** (attempt - 1), config.max_delay)`. -/
def calculate_delay (attempt : Nat) (config : RetryConfig) : ℚ :=
  min (config.delay * config.backoff_factor ^ (attempt - 1)) config.max_delay

/-- `calculate_delay` including the jitter factor `0.5 + random.random() * 0.5`
applied when `config.jitter` is set; `rand` stands for the sampled value of
`random.random()`. -/
def calculate_delay_jittered (attempt : Nat) (config : RetryConfig)
    (rand : ℚ) : ℚ :=
  if config.jitter then
    calculate_delay attempt config * (1/2 + rand * (1/2))
  else
    calculate_delay attempt config

/-- `EXTERNAL_SERVICE_RETRY` (app/core/retry.py): max_attempts 3, delay 2.0,
backoff_factor 2.0, max_delay 30.0, jitter defaulted to True. -/
def EXTERNAL_SERVICE_RETRY : RetryConfig := ⟨3, 2, 2, 30, true⟩

/-- C9: on `EXTERNAL_SERVICE_RETRY`, the pre-jitter delay of attempt n ≥ 1 is
min(2 * 2^(n-1), 30); the first six delays are 2, 4, 8, 16, 30, 30 seconds;
and the sequence is capped at 30 and monotonically non-decreasing. -/
theorem claim9_theorem :
    (∀ n : Nat, 1 ≤ n →
        calculate_delay n EXTERNAL_SERVICE_RETRY = min (2 * 2 ^ (n - 1)) 30)
    ∧ ([1, 2, 3, 4, 5, 6].map
          (fun n => calculate_delay n EXTERNAL_SERVICE_RETRY)
        = [2, 4, 8, 16, 30, 30])
    ∧ (∀ n : Nat, calculate_delay n EXTERNAL_SERVICE_RETRY ≤ 30)
    ∧ (∀ m n : Nat, m ≤ n →
        calculate_delay m EXTERNAL_SERVICE_RETRY
          ≤ calculate_delay n EXTERNAL_SERVICE_RETRY) := by
  refine ⟨fun n _ => rfl,
    by norm_num [calculate_delay, EXTERNAL_SERVICE_RETRY, min_def],
    fun n => min_le_right _ _, ?_⟩
  intro m n hmn
  unfold calculate_delay EXTERNAL_SERVICE_RETRY
  dsimp only
  refine min_le_min (mul_le_mul_of_nonneg_left ?_ (by norm_num)) le_rfl
  exact pow_le_pow_right₀ (by norm_num) (Nat.sub_le_sub_right hmn 1)

/-- Closed witness for `claim9_theorem`: delays of attempts 1 and 4, the cap,
and monotonicity between attempts 3 and 5. -/
theorem claim9_witness :
    (1 ≤ (1 : Nat))
    ∧ calculate_delay 1 EXTERNAL_SERVICE_RETRY = min (2 * 2 ^ (1 - 1)) 30
    ∧ calculate_delay 4 EXTERNAL_SERVICE_RETRY ≤ 30
    ∧ ((3 : Nat) ≤ 5
        ∧ calculate_delay 3 EXTERNAL_SERVICE_RETRY
            ≤ calculate_delay 5 EXTERNAL_SERVICE_RETRY) :=
  ⟨by decide, claim9_theorem.1 1 (by decide), claim9_theorem.2.2.1 4,
   by decide, claim9_theorem.2.2.2 3 5 (by decide)⟩

/-- Circuit-breaker phases (the `state` string of `CircuitBreaker` in
app/core/retry.py). -/
inductive BreakerPhase where
  | CLOSED
  | OPEN
  | HALF_OPEN
deriving DecidableEq, Repr

/-- The constructor parameters of `CircuitBreaker` (app/core/retry.py).
`expected_exception` is `Exception` on every instance in the source, so every
failure of the wrapped call counts. -/
structure CircuitBreaker where
  failure_threshold : Nat
  recovery_timeout : Nat
deriving DecidableEq, Repr

/-- The mutable state of a `CircuitBreaker` instance. -/
structure BreakerState where
  failure_count : Nat
  last_failure_time : Option Nat
  phase : BreakerPhase
deriving DecidableEq, Repr

/-- Fresh breaker state as initialised by `CircuitBreaker.__init__`. -/
def initBreakerState : BreakerState := ⟨0, none, .CLOSED⟩

/-- `CircuitBreaker._should_attempt_reset`:
`last_failure_time and (now - last_failure_time > recovery_timeout)`.
Truncated subtraction agrees with the source: a negative elapsed time also
fails the strict comparison against the non-negative timeout. -/
def shouldAttemptReset (cb : CircuitBreaker) (bs : BreakerState)
    (now : Nat) : Bool :=
  match bs.last_failure_time with
  | none => false
  | some t => cb.recovery_timeout < now - t

/-- Outcome of one call through the breaker wrapper. -/
inductive CallOutcome where
  | shortCircuit
  | success
  | failure
deriving DecidableEq, Repr

/-- Result of one call through the breaker wrapper: the new breaker state,
the outcome, and whether the wrapped function body was invoked. -/
structure BreakerCallResult where
  bs : BreakerState
  outcome : CallOutcome
  invoked : Bool
deriving DecidableEq, Repr

/-- The invoke-and-update part of `CircuitBreaker.__call__`: run the wrapped
function (`funcSucceeds` gives its result), then `_on_success` (counter
zeroed, phase CLOSED) or `_on_failure` (counter incremented, failure time
recorded, phase OPEN once the counter reaches the threshold, otherwise
unchanged). -/
def breakerInvoke (cb : CircuitBreaker) (bs : BreakerState) (now : Nat)
    (funcSucceeds : Bool) : BreakerCallResult :=
  if funcSucceeds then
    ⟨⟨0, bs.last_failure_time, .CLOSED⟩, .success, true⟩
  else
    let c := bs.failure_count + 1
    ⟨⟨c, some now, if cb.failure_threshold ≤ c then .OPEN else bs.phase⟩,
      .failure, true⟩

/-- `CircuitBreaker.__call__` wrapper body: while OPEN, either transition to
HALF_OPEN (when the recovery timeout has elapsed since the last failure) and
proceed to the wrapped call, or raise the "Circuit breaker is OPEN" error
without invoking the wrapped function. -/
def breakerCall (cb : CircuitBreaker) (bs : BreakerState) (now : Nat)
    (funcSucceeds : Bool) : BreakerCallResult :=
  if bs.phase = .OPEN then
    if shouldAttemptReset cb bs now then
      breakerInvoke cb { bs with phase := .HALF_OPEN } now funcSucceeds
    else
      ⟨bs, .shortCircuit, false⟩
  else
    breakerInvoke cb bs now funcSucceeds

/-- `airflow_circuit_breaker` (app/core/retry.py): failure_threshold 3,
recovery_timeout 30. -/
def airflow_circuit_breaker : CircuitBreaker := ⟨3, 30⟩

/-- Result of running the retry loop over the breaker-wrapped call: final
breaker state, final outcome (the one returned or re-raised to the caller),
how many times the wrapped function body was invoked, and how many attempts
the retry loop made. -/
structure RetryBreakerResult where
  bs : BreakerState
  outcome : CallOutcome
  invocations : Nat
  attempts : Nat
deriving DecidableEq, Repr

/-- `retry_async` (app/core/retry.py) wrapped around the breaker-wrapped
call, as layered on `AirflowClient._make_request` by
`@with_retry(EXTERNAL_SERVICE_RETRY)` above `@airflow_circuit_breaker`
(decorators apply bottom-up, so the retry loop is outermost).  Each list
element is one attempt: the wall-clock instant of the attempt and whether
the wrapped function would succeed if invoked.  Every exception — including
the breaker's "Circuit breaker is OPEN" error — matches the configuration's
retryable tuple `(ConnectionError, TimeoutError, Exception)`, so a failed or
short-circuited attempt is retried while attempts remain, and after the last
attempt the last exception is re-raised. -/
def retry_over_breaker (cb : CircuitBreaker) (bs : BreakerState) :
    List (Nat × Bool) → RetryBreakerResult
  | [] => ⟨bs, .shortCircuit, 0, 0⟩
  | (t, ok) :: rest =>
    let r := breakerCall cb bs t ok
    let inv : Nat := if r.invoked then 1 else 0
    match r.outcome, rest with
    | .success, _ => ⟨r.bs, .success, inv, 1⟩
    | out, [] => ⟨r.bs, out, inv, 1⟩
    | _, _ :: _ =>
      let r2 := retry_over_breaker cb r.bs rest
      ⟨r2.bs, r2.outcome, inv + r2.invocations, 1 + r2.attempts⟩

/-- A breaker state that has just tripped OPEN at instant 0 with the airflow
threshold reached. -/
def openBreakerState : BreakerState := ⟨3, some 0, .OPEN⟩

/-- C4 as stated is false: with the breaker OPEN (tripped at instant 0) and
all three retry attempts made inside the recovery window, the circuit-open
short-circuit IS retried by the retry policy — the loop makes 3 attempts,
not 1 — although the wrapped function is indeed never invoked and the
circuit-open error is what finally propagates. -/
theorem claim4_counterexample :
    (retry_over_breaker airflow_circuit_breaker openBreakerState
        [(1, true), (2, true), (3, true)]).attempts = 3
    ∧ (retry_over_breaker airflow_circuit_breaker openBreakerState
        [(1, true), (2, true), (3, true)]).attempts ≠ 1
    ∧ (retry_over_breaker airflow_circuit_breaker openBreakerState
        [(1, true), (2, true), (3, true)]).invocations = 0
    ∧ (retry_over_breaker airflow_circuit_breaker openBreakerState
        [(1, true), (2, true), (3, true)]).outcome = .shortCircuit := by
  decide

/-- C4 amended: the retry decorator wraps the breaker (not the reverse), and
its retryable exceptions include every Exception, so a circuit-open
short-circuit is itself retried until the configuration's max_attempts (3)
are exhausted; each of the 3 attempts fails fast without invoking the
wrapped orchestrator function, the breaker state is untouched, and the
circuit-open error then propagates to the caller. -/
theorem claim4_theorem (c tf t1 t2 t3 : Nat) (o1 o2 o3 : Bool)
    (h1 : t1 - tf ≤ 30) (h2 : t2 - tf ≤ 30) (h3 : t3 - tf ≤ 30) :
    EXTERNAL_SERVICE_RETRY.max_attempts = 3
    ∧ retry_over_breaker airflow_circuit_breaker ⟨c, some tf, .OPEN⟩
        [(t1, o1), (t2, o2), (t3, o3)]
      = ⟨⟨c, some tf, .OPEN⟩, .shortCircuit, 0, 3⟩ := by
  refine ⟨rfl, ?_⟩
  have e1 : shouldAttemptReset airflow_circuit_breaker ⟨c, some tf, .OPEN⟩ t1
      = false := by
    simp [shouldAttemptReset, airflow_circuit_breaker, Nat.not_lt.mpr h1]
  have e2 : shouldAttemptReset airflow_circuit_breaker ⟨c, some tf, .OPEN⟩ t2
      = false := by
    simp [shouldAttemptReset, airflow_circuit_breaker, Nat.not_lt.mpr h2]
  have e3 : shouldAttemptReset airflow_circuit_breaker ⟨c, some tf, .OPEN⟩ t3
      = false := by
    simp [shouldAttemptReset, airflow_circuit_breaker, Nat.not_lt.mpr h3]
  simp [retry_over_breaker, breakerCall, e1, e2, e3]

/-- Closed witness for `claim4_theorem` with the trip at instant 0 and
attempts at instants 1, 2, 3. -/
theorem claim4_witness :
    ((1 : Nat) - 0 ≤ 30 ∧ (2 : Nat) - 0 ≤ 30 ∧ (3 : Nat) - 0 ≤ 30)
    ∧ (EXTERNAL_SERVICE_RETRY.max_attempts = 3
        ∧ retry_over_breaker airflow_circuit_breaker ⟨7, some 0, .OPEN⟩
            [(1, false), (2, false), (3, false)]
          = ⟨⟨7, some 0, .OPEN⟩, .shortCircuit, 0, 3⟩) :=
  ⟨⟨by decide, by decide, by decide⟩,
   claim4_theorem 7 0 1 2 3 false false false (by decide) (by decide)
     (by decide)⟩

/-- C8: from a fresh breaker with failure_threshold 3, three consecutive
failures (at instants t1, t2, t3) trip the breaker to OPEN with the trip
time recorded; a call made while no more than recovery_timeout has elapsed
since the trip short-circuits without invoking the wrapped function and
changes nothing; the first call after recovery_timeout has elapsed is let
through (via HALF_OPEN) and invokes the wrapped function exactly once, and
its success resets the breaker to CLOSED with the failure counter zeroed. -/
theorem claim8_theorem (r t1 t2 t3 t4 t5 : Nat) (ok4 : Bool)
    (h4 : t4 - t3 ≤ r) (h5 : r < t5 - t3) :
    ((breakerCall ⟨3, r⟩
        (breakerCall ⟨3, r⟩
          (breakerCall ⟨3, r⟩ initBreakerState t1 false).bs t2 false).bs
        t3 false).bs = ⟨3, some t3, .OPEN⟩)
    ∧ breakerCall ⟨3, r⟩ ⟨3, some t3, .OPEN⟩ t4 ok4
        = ⟨⟨3, some t3, .OPEN⟩, .shortCircuit, false⟩
    ∧ breakerCall ⟨3, r⟩ ⟨3, some t3, .OPEN⟩ t5 true
        = ⟨⟨0, some t3, .CLOSED⟩, .success, true⟩ := by
  refine ⟨?_, ?_, ?_⟩
  · simp [breakerCall, breakerInvoke, initBreakerState]
  · simp [breakerCall, shouldAttemptReset, Nat.not_lt.mpr h4]
  · simp [breakerCall, breakerInvoke, shouldAttemptReset, h5]

/-- Closed witness for `claim8_theorem`: recovery timeout 30, failures at
instants 0, 1, 2, a short-circuited call at instant 10, and a successful
trial call at instant 40. -/
theorem claim8_witness :
    ((10 : Nat) - 2 ≤ 30 ∧ (30 : Nat) < 40 - 2)
    ∧ (((breakerCall ⟨3, 30⟩
          (breakerCall ⟨3, 30⟩
            (breakerCall ⟨3, 30⟩ initBreakerState 0 false).bs 1 false).bs
          2 false).bs = ⟨3, some 2, .OPEN⟩)
        ∧ breakerCall ⟨3, 30⟩ ⟨3, some 2, .OPEN⟩ 10 false
            = ⟨⟨3, some 2, .OPEN⟩, .shortCircuit, false⟩
        ∧ breakerCall ⟨3, 30⟩ ⟨3, some 2, .OPEN⟩ 40 true
            = ⟨⟨0, some 2, .CLOSED⟩, .success, true⟩) :=
  ⟨⟨by decide, by decide⟩,
   claim8_theorem 30 0 1 2 10 40 false (by decide) (by decide)⟩

/-- `DAG_EXECUTION_CHAIN` (app/application/tasks/dag_chain_tasks.py). -/
def DAG_EXECUTION_CHAIN : List String :=
  ["data_processing_pipeline", "ml_training_pipeline", "simple_workflow_example"]

/-- `_trigger_next_dag` (app/application/tasks/dag_chain_tasks.py), reduced
to the trigger calls it performs: guard against an index past the end of the
chain, otherwise trigger `chain[dagIndex]` once, embedding `dagIndex` as the
`dag_chain_index` bookkeeping parameter of the new run (the same index is
also passed to the monitoring task scheduled for the new run). -/
def trigger_next_dag (chain : List String) (dagIndex : Nat) :
    List (String × Nat) :=
  if dagIndex < chain.length then
    [(chain.getD dagIndex "", dagIndex)]
  else
    []

/-- Result of one poll iteration of the chain monitor: the updated run, the
trigger calls performed (dag id and the chain index carried in the
bookkeeping parameters), the parent task status written (if any), and
whether monitoring of this run ends. -/
structure ChainStepResult where
  run : WorkflowRun
  triggers : List (String × Nat)
  taskStatus : Option TaskStatus
  done : Bool
deriving DecidableEq, Repr

/-- One iteration of `_monitor_dag_completion_async`
(app/application/tasks/dag_chain_tasks.py) for the run at position
`dagIndex` in `chain`.  On "success": mark the run SUCCESS (end_date from
the payload when present), then trigger the next stage if one remains, else
mark the parent task COMPLETED.  On "failed": mark the run FAILED, mark the
parent task FAILED, no trigger.  On "running"/"queued": update the stored
status if it differs (start_date from the payload on "running") and keep
monitoring.  Any other observed state leaves everything unchanged and keeps
monitoring. -/
def monitor_dag_completion_step (chain : List String) (dagIndex : Nat)
    (run : WorkflowRun) (d : DagRunData) (now : Nat) : ChainStepResult :=
  if d.state = "success" then
    let r1 := run.update_status .SUCCESS now
    let r2 :=
      match d.end_date with
      | some t => { r1 with end_date := some t }
      | none => r1
    if dagIndex + 1 < chain.length then
      ⟨r2, trigger_next_dag chain (dagIndex + 1), none, true⟩
    else
      ⟨r2, [], some .COMPLETED, true⟩
  else if d.state = "failed" then
    ⟨run.update_status .FAILED now, [], some .FAILED, true⟩
  else if d.state = "running" ∨ d.state = "queued" then
    let cur := if d.state = "running" then WorkflowStatus.RUNNING else .QUEUED
    if run.status ≠ cur then
      let r1 := run.update_status cur now
      let r2 :=
        if d.state = "running" then
          match d.start_date with
          | some t => { r1 with start_date := some t }
          | none => r1
        else r1
      ⟨r2, [], none, false⟩
    else
      ⟨run, [], none, false⟩
  else
    ⟨run, [], none, false⟩

/-- C7: for any ordered chain [a, b, c], the chain monitor observing the
stage-0 run reach "success" performs exactly one trigger call, for stage b,
carrying chain index 1 in its bookkeeping parameters; observing the stage-1
run reach "failed" performs zero trigger calls and marks the parent task
FAILED. -/
theorem claim7_theorem (a b c : String) (runA runB : WorkflowRun)
    (sd ed : Option Nat) (now : Nat) :
    (monitor_dag_completion_step [a, b, c] 0 runA ⟨"success", sd, ed⟩ now).triggers
      = [(b, 1)]
    ∧ (monitor_dag_completion_step [a, b, c] 1 runB ⟨"failed", sd, ed⟩ now).triggers
      = []
    ∧ (monitor_dag_completion_step [a, b, c] 1 runB ⟨"failed", sd, ed⟩ now).taskStatus
      = some .FAILED := by
  refine ⟨?_, ?_, ?_⟩ <;>
    simp [monitor_dag_completion_step, trigger_next_dag]

/-- The command given to `trigger_workflow`
(app/application/use_cases/workflow_use_cases.py): `TriggerWorkflowCommand`
with its workflow, principal, task, dataset, parameter and note fields. -/
structure TriggerWorkflowCommand where
  workflow_id : String
  triggered_by : Option Nat
  task_id : Option Nat
  dataset_id : Option Nat
  parameters : List (String × String)
  note : Option String
deriving DecidableEq, Repr

/-- The run-id generation line of `trigger_workflow`:
`run_id = "api_trigger_" + datetime.now().strftime("%Y%m%d_%H%M%S")`.
`nowFormatted` is the wall-clock time formatted at one-second precision; the
command in scope contributes nothing to the string. -/
def generate_run_id (_cmd : TriggerWorkflowCommand)
    (nowFormatted : String) : String :=
  "api_trigger_" ++ nowFormatted

/-- The `dag_run_id` field of the payload built by `AirflowClient.trigger_dag`
(app/application/services/airflow_service.py):
`dag_run_id or "api_trigger_" + utc-isoformat-now` — Python `or` falls back
when the argument is None or the empty string. -/
def trigger_dag_run_id (dagRunId : Option String)
    (utcFallback : String) : String :=
  match dagRunId with
  | some s => if s = "" then "api_trigger_" ++ utcFallback else s
  | none => "api_trigger_" ++ utcFallback

/-- The run-id string that `trigger_workflow` hands to the external trigger
call for a given command: the generated id threaded through `trigger_dag`
into the request payload. -/
def trigger_payload_run_id (cmd : TriggerWorkflowCommand)
    (nowFormatted utcFallback : String) : String :=
  trigger_dag_run_id (some (generate_run_id cmd nowFormatted)) utcFallback

/-- C10: the run id passed to the external trigger call is exactly
"api_trigger_" followed by the second-precision formatted clock time, and
depends on nothing else — two trigger commands formatted in the same clock
second yield the identical run-id string, whatever their workflow, task,
dataset, parameters, principal or note. -/
theorem claim10_theorem (c1 c2 : TriggerWorkflowCommand)
    (t fb1 fb2 : String) :
    trigger_payload_run_id c1 t fb1 = "api_trigger_" ++ t
    ∧ trigger_payload_run_id c1 t fb1 = trigger_payload_run_id c2 t fb2 := by
  have hne : ("api_trigger_" ++ t : String) ≠ "" := by
    intro h
    have h2 : ("api_trigger_" ++ t).length = 0 := by rw [h]; rfl
    rw [String.length_append] at h2
    have h3 : ("api_trigger_" : String).length = 12 := rfl
    omega
  constructor
  · simp [trigger_payload_run_id, trigger_dag_run_id, generate_run_id, hne]
  · simp [trigger_payload_run_id, trigger_dag_run_id, generate_run_id, hne]

end SVOps
